import Mathlib

/-!
Shallow embedding of the voyago-go-boilerplate error-taxonomy and
transaction-scoped persistence core:

* `internal/pkg/apperror` — `AppError`, kind constants, error codes, the
  process-wide status registry and `GetHttpStatus`;
* `internal/infrastructure/db` — `MapDBError` / `mapPgError`, the storage
  error classifier, and the `Atomic` transaction manager built on GORM's
  `Transaction`;
* `internal/infrastructure/ctxkey` — the context carrier
  (`SetTransaction` / `GetTransaction` / `SetRequestID` / `GetRequestID`).

Go `error` values reaching the classifier are modelled by the inductive
`RawError` (driver/system errors); classified errors are `AppError`; an
`error` in flight is `Sum RawError AppError`.  Nil errors are `Option.none`.
-/

namespace Voyago

/-- Kind constant `apperror.KindPersistance` (Go models `Kind` as a string type). -/
def KindPersistance : String := "PERSISTANCE"

/-- Kind constant `apperror.KindTransient`. -/
def KindTransient : String := "TRANSIENT"

/-- Kind constant `apperror.KindInternal`. -/
def KindInternal : String := "INTERNAL"

-- Infrastructure error codes from `internal/pkg/apperror/codes.go`.

def CodeDbConnectionFailed : String := "DB_CONNECTION_FAILED"

def CodeDbTimeout : String := "DB_TIMEOUT"

def CodeDbDeadlock : String := "DB_DEADLOCK"

def CodeDbConstraint : String := "DB_CONSTRAINT"

def CodeDbConflict : String := "DB_CONFLICT"

def CodeInternalError : String := "INTERNAL_ERROR"

def CodeMalformedRequest : String := "MALFORMED_REQUEST"

def CodeInvalidRequest : String := "INVALID_REQUEST"

def CodeValidation : String := "VALIDATION_ERROR"

def CodeUnauthorized : String := "UNAUTHORIZED"

def CodeForbidden : String := "FORBIDDEN"

def CodeNotFound : String := "NOT_FOUND"

def CodeMethodNotAllowed : String := "METHOD_NOT_ALLOWED"

def CodeNotAcceptable : String := "NOT_ACCEPTABLE"

def CodeRequestTimeout : String := "REQUEST_TIMEOUT"

def CodeConflict : String := "CONFLICT"

def CodeGone : String := "GONE"

def CodeLengthRequired : String := "LENGTH_REQUIRED"

def CodePreconditionFailed : String := "PRECONDITION_FAILED"

def CodePayloadTooLarge : String := "PAYLOAD_TOO_LARGE"

def CodeURITooLong : String := "URI_TOO_LONG"

def CodeUnsupportedMediaType : String := "UNSUPPORTED_MEDIA_TYPE"

def CodeRangeNotSatisfiable : String := "RANGE_NOT_SATISFIABLE"

def CodeExpectationFailed : String := "EXPECTATION_FAILED"

def CodeTeapot : String := "TEAPOT"

def CodeMisdirectedRequest : String := "MISDIRECTED_REQUEST"

def CodeUnprocessableEntity : String := "UNPROCESSABLE_ENTITY"

def CodeLocked : String := "LOCKED"

def CodeFailedDependency : String := "FAILED_DEPENDENCY"

def CodeTooEarly : String := "TOO_EARLY"

def CodeUpgradeRequired : String := "UPGRADE_REQUIRED"

def CodePreconditionRequired : String := "PRECONDITION_REQUIRED"

def CodeTooManyRequests : String := "TOO_MANY_REQUESTS"

def CodeRequestHeaderFieldsTooLarge : String := "REQUEST_HEADER_FIELDS_TOO_LARGE"

def CodeUnavailableForLegalReasons : String := "UNAVAILABLE_FOR_LEGAL_REASONS"

def CodeNetworkAuthenticationRequired : String := "NETWORK_AUTHENTICATION_REQUIRED"

/-- Fields of `pgconn.PgError` used by `mapPgError` (structured Postgres driver error). -/
structure PgError where
  Severity : String
  Code : String
  Message : String
  Detail : String
  ConstraintName : String
deriving DecidableEq

/-- Raw (unclassified) Go errors that can reach the storage layer:
the `gorm.ErrRecordNotFound` sentinel, the context sentinels
`context.DeadlineExceeded` and `context.Canceled`, a structured Postgres
driver error, or any other error carrying only a message. -/
inductive RawError where
  | recordNotFound
  | deadlineExceeded
  | canceled
  | pg (p : PgError)
  | other (msg : String)
deriving DecidableEq

/-- Models `err.Error()` for a raw error.  A `pgconn.PgError` renders as
`Severity: Message (SQLSTATE Code)`. -/
def RawError.errorMessage : RawError → String
  | .recordNotFound => "record not found"
  | .deadlineExceeded => "context deadline exceeded"
  | .canceled => "context canceled"
  | .pg p => p.Severity ++ ": " ++ p.Message ++ " (SQLSTATE " ++ p.Code ++ ")"
  | .other msg => msg

/-- Models `errors.Is(err, gorm.ErrRecordNotFound)` over the raw-error universe. -/
def isRecordNotFound : RawError → Bool
  | .recordNotFound => true
  | _ => false

/-- Models `errors.Is(err, context.DeadlineExceeded)` over the raw-error universe. -/
def isDeadlineExceeded : RawError → Bool
  | .deadlineExceeded => true
  | _ => false

/-- Models `errors.As(err, &pgErr)` over the raw-error universe. -/
def errorsAsPgError : RawError → Option PgError
  | .pg p => some p
  | _ => none

/-- Models `strings.Contains s pat`. -/
def stringContains (s pat : String) : Bool :=
  decide (pat.toList <:+: s.toList)

/-- The shapes `AppError.Details` (typed `any` in Go) actually takes:
nil, a `map[string]any` built by `WithDetail`, a `[]map[string]string`
of field/message pairs built by `AddValidationError`, or the
`[]map[string]any` payload assigned wholesale by `AddValidationErrors`. -/
inductive Details where
  | dnone
  | dmap (entries : List (String × String))
  | dlist (entries : List (String × String))
  | dset (entries : List (List (String × String)))
deriving DecidableEq

/-- Embeds `apperror.AppError` (`internal/pkg/apperror/types.go`).  `Kind` is a
string type in Go; `Err` holds the wrapped raw cause. -/
structure AppError where
  Code : String
  Message : String
  Kind : String
  Details : Details
  Err : Option RawError
deriving DecidableEq

/-- Go map assignment `m[k] = v` on the detail map, viewed as an
association list where the freshest binding wins. -/
def mapInsert (entries : List (String × String)) (k v : String) :
    List (String × String) :=
  (k, v) :: entries.filter (fun p => p.1 != k)

/-- Embeds `apperror.New`: the generic constructor; sets `Code`, `Message`, `Kind`
and the optional wrapped cause. -/
def New (code message kind : String) (err : Option RawError) : AppError :=
  { Code := code, Message := message, Kind := kind, Details := .dnone, Err := err }

/-- Embeds `apperror.NewPersistance`. -/
def NewPersistance (code message : String) (err : Option RawError) : AppError :=
  New code message KindPersistance err

/-- Embeds `apperror.NewTransient`. -/
def NewTransient (code message : String) (err : Option RawError) : AppError :=
  New code message KindTransient err

/-- Embeds `apperror.NewInternal`. -/
def NewInternal (code message : String) (err : Option RawError) : AppError :=
  New code message KindInternal err

/-- Embeds `AppError.WithDetail`: adds a key/value pair to the details map,
re-initialising the container as a map when it is not one. -/
def AppError.WithDetail (e : AppError) (key value : String) : AppError :=
  match e.Details with
  | .dmap entries => { e with Details := .dmap (mapInsert entries key value) }
  | _ => { e with Details := .dmap (mapInsert [] key value) }

/-- Embeds `AppError.WithError`: attaches the underlying cause. -/
def AppError.WithError (e : AppError) (err : Option RawError) : AppError :=
  { e with Err := err }

/-- Embeds `AppError.AddValidationError`: appends to the list-shaped details,
re-initialising the container as a list when it is not one. -/
def AppError.AddValidationError (e : AppError) (field message : String) : AppError :=
  match e.Details with
  | .dlist l => { e with Details := .dlist (l ++ [(field, message)]) }
  | _ => { e with Details := .dlist [(field, message)] }

/-- Embeds `AppError.AddValidationErrors`: replaces the details wholesale. -/
def AppError.AddValidationErrors (e : AppError)
    (errs : List (List (String × String))) : AppError :=
  { e with Details := .dset errs }

/-- Embeds `AppError.IsRetryable`. -/
def AppError.IsRetryable (e : AppError) : Bool :=
  e.Kind == KindTransient

/-- Embeds `mapPgError` (`internal/infrastructure/db`): the switch on
`pgErr.Code`; returns `none` when the error is not a `pgconn.PgError`
or its code is not handled. -/
def mapPgError (err : RawError) : Option AppError :=
  match errorsAsPgError err with
  | none => none
  | some pgErr =>
    if pgErr.Code == "08000" || pgErr.Code == "08003" ||
       pgErr.Code == "08006" || pgErr.Code == "57P01" then
      some (NewTransient CodeDbConnectionFailed "database connection failed" (some err))
    else if pgErr.Code == "40P01" then
      some (NewTransient CodeDbDeadlock "database deadlock detected, please retry" (some err))
    else if pgErr.Code == "55P03" then
      some (NewTransient CodeDbTimeout "database lock timeout" (some err))
    else if pgErr.Code == "23505" then
      some (((NewPersistance CodeDbConflict "duplicate data" (some err)).WithDetail
        "constraint" pgErr.ConstraintName).WithDetail "detail" pgErr.Detail)
    else if pgErr.Code == "23503" || pgErr.Code == "23502" || pgErr.Code == "23000" then
      some (NewPersistance CodeDbConstraint
        ("database constraint violation: " ++ pgErr.Message) (some err))
    else if pgErr.Code == "42703" || pgErr.Code == "42601" || pgErr.Code == "42P01" then
      some (NewInternal CodeInternalError "database schema or syntax error" (some err))
    else none

/-- Embeds `MapDBError`: the storage error classifier.  Returns `none` for a nil
input, `Sum.inl` for the record-not-found passthrough, and `Sum.inr` for a
classified `AppError`. -/
def MapDBError : Option RawError → Option (Sum RawError AppError)
  | none => none
  | some err =>
    if isRecordNotFound err then some (Sum.inl err)
    else if isDeadlineExceeded err then
      some (Sum.inr (NewTransient CodeDbTimeout "database operation timed out" (some err)))
    else
      match mapPgError err with
      | some appErr => some (Sum.inr appErr)
      | none =>
        let msg := err.errorMessage
        if stringContains msg "connection refused" ||
           stringContains msg "can\x27t assign requested address" ||
           stringContains msg "connection reset by peer" ||
           stringContains msg "broken pipe" then
          some (Sum.inr (NewTransient CodeDbConnectionFailed
            "database connection failed" (some err)))
        else
          some (Sum.inr (NewInternal CodeInternalError
            "unexpected database error" (some err)))

/-- The process-wide `statusRegistry` map, modelled as an association list
where the freshest binding wins (the spec's design notes sanction passing
the registry explicitly). -/
abbrev Registry := List (String × Nat)

/-- Embeds `apperror.RegisterStatus`: insert-or-overwrite. -/
def RegisterStatus (reg : Registry) (code : String) (status : Nat) : Registry :=
  (code, status) :: reg.filter (fun p => p.1 != code)

/-- The registry contents seeded by the package `init` function of
`internal/pkg/apperror/types.go` (all keys are distinct, so a literal
list is the same map the sequence of assignments builds). -/
def initRegistry : Registry :=
  [(CodeDbConnectionFailed, 500), (CodeDbTimeout, 500), (CodeDbDeadlock, 500),
   (CodeDbConstraint, 500), (CodeDbConflict, 409), (CodeInternalError, 500),
   (CodeMalformedRequest, 400), (CodeInvalidRequest, 400), (CodeValidation, 400),
   (CodeUnauthorized, 401), (CodeForbidden, 403), (CodeNotFound, 404),
   (CodeMethodNotAllowed, 405), (CodeNotAcceptable, 406), (CodeRequestTimeout, 408),
   (CodeConflict, 409), (CodeGone, 410), (CodeLengthRequired, 411),
   (CodePreconditionFailed, 412), (CodePayloadTooLarge, 413), (CodeURITooLong, 414),
   (CodeUnsupportedMediaType, 415), (CodeRangeNotSatisfiable, 416),
   (CodeExpectationFailed, 417), (CodeTeapot, 418), (CodeMisdirectedRequest, 421),
   (CodeUnprocessableEntity, 422), (CodeLocked, 423), (CodeFailedDependency, 424),
   (CodeTooEarly, 425), (CodeUpgradeRequired, 426), (CodePreconditionRequired, 428),
   (CodeTooManyRequests, 429), (CodeRequestHeaderFieldsTooLarge, 431),
   (CodeUnavailableForLegalReasons, 451), (CodeNetworkAuthenticationRequired, 511)]

/-- Models `strings.ToUpper`, character by character (our codes are ASCII). -/
def stringToUpper (s : String) : String :=
  String.mk (s.toList.map Char.toUpper)

/-- Embeds `AppError.GetHttpStatus`: registry lookup on the code, then a
case-insensitive retry on the upper-cased code, then the kind fallback. -/
def GetHttpStatus (reg : Registry) (e : AppError) : Nat :=
  match List.lookup e.Code reg with
  | some status => status
  | none =>
    match List.lookup (stringToUpper e.Code) reg with
    | some status => status
    | none =>
      if e.Kind == KindPersistance then 400
      else if e.Kind == KindTransient then 503
      else if e.Kind == KindInternal then 500
      else 500

/-! ### Context carrier (`internal/infrastructure/ctxkey`) -/

/-- Embeds `ctxkey.key` — the unexported zero-size struct used for carrier keys.
Both package-level keys are values of this single type, so any two of
them compare equal under Go's `==`. -/
structure CtxKey where
deriving DecidableEq

/-- Embeds `ctxkey.kTx`. -/
def kTx : CtxKey := {}

/-- Embeds `ctxkey.kRequestID`. -/
def kRequestID : CtxKey := {}

/-- A transaction handle (`*gorm.DB` bound to an open transaction),
identified by the order in which transactions were begun. -/
structure Tx where
  id : Nat
deriving DecidableEq

/-- The `any` values the repository actually stores in a context:
a transaction handle (`SetTransaction`) or a string (`SetRequestID`). -/
inductive CtxValue where
  | txVal (t : Tx)
  | strVal (s : String)
deriving DecidableEq

/-- Models `context.Context`: `context.Background()` plus `context.WithValue`
derivation; `Value` walks to the most recent binding whose key compares
equal. -/
inductive Context where
  | background
  | withValue (parent : Context) (k : CtxKey) (v : CtxValue)
deriving DecidableEq

/-- Models `ctx.Value(q)`. -/
def Context.value : Context → CtxKey → Option CtxValue
  | .background, _ => none
  | .withValue parent k v, q => if k = q then some v else parent.value q

/-- Embeds `ctxkey.GetTransaction`: returns `ctx.Value(kTx)` with no type check. -/
def GetTransaction (ctx : Context) : Option CtxValue :=
  ctx.value kTx

/-- Embeds `ctxkey.SetTransaction`. -/
def SetTransaction (ctx : Context) (tx : CtxValue) : Context :=
  .withValue ctx kTx tx

/-- Embeds `ctxkey.SetRequestID`. -/
def SetRequestID (ctx : Context) (id : String) : Context :=
  .withValue ctx kRequestID (.strVal id)

/-- Embeds `ctxkey.GetRequestID`: returns `ctx.Value(kRequestID)` when it is a
string, `""` otherwise. -/
def GetRequestID (ctx : Context) : String :=
  match ctx.value kRequestID with
  | some (.strVal s) => s
  | _ => ""

/-! ### Transaction manager (`gormDatabase.Atomic` over GORM's `Transaction`)

The observable storage state: `committed` are the writes visible outside
any transaction, `buffers tid` the pending writes of open transaction
`tid`, `nextTxId` the id the next `BEGIN` will take, and `opened` counts
how many transactions have been begun.  A unit of work is deep-embedded:
it can return, perform a repository write, or call `Atomic` again
(receiving the nested call's result in its continuation). -/

/-- An `error` value in flight: a raw driver/system error or a classified
`AppError`. -/
abbrev ErrVal := Sum RawError AppError

/-- Storage state. -/
structure Store where
  nextTxId : Nat
  opened : Nat
  committed : List String
  buffers : Nat → List String

/-- A unit of work passed to `Atomic`. -/
inductive UnitOfWork where
  | ret (e : Option ErrVal)
  | write (w : String) (k : UnitOfWork)
  | atomicCall (inner : UnitOfWork) (k : Option ErrVal → UnitOfWork)

/-- The commit oracle: whether `COMMIT` of transaction `tid` fails, and
with which raw driver error. -/
abbrev CommitEnv := Nat → Option RawError

/-- A repository write issued under `ctx`
(`BaseRepository.Create` → `gormDatabase.WithContext`): if the context
carries a transaction handle (and it type-asserts to `*gorm.DB`), the
write joins that transaction's pending set; otherwise it executes on an
ad hoc session and is immediately visible. -/
def performWrite (ctx : Context) (s : Store) (w : String) : Store :=
  match GetTransaction ctx with
  | some (.txVal t) =>
    { s with buffers := fun id => if id = t.id then s.buffers id ++ [w] else s.buffers id }
  | _ => { s with committed := s.committed ++ [w] }

/-- Models `ROLLBACK` of transaction `tid`: its pending writes are discarded. -/
def rollbackTx (tid : Nat) (s : Store) : Store :=
  { s with buffers := fun id => if id = tid then [] else s.buffers id }

/-- Models `COMMIT` of transaction `tid`: its pending writes become visible. -/
def commitTx (tid : Nat) (s : Store) : Store :=
  { s with committed := s.committed ++ s.buffers tid,
           buffers := fun id => if id = tid then [] else s.buffers id }

/-- Run a unit of work.  The `atomicCall` case inlines
`gormDatabase.Atomic`: `g.db.WithContext(ctx).Transaction(...)` on the
root handle begins a fresh transaction (the root connection pool is not
a transaction, so GORM's `Transaction` always issues `BEGIN`), attaches
the fresh handle with `ctxkey.SetTransaction`, runs the unit, rolls back
when it returns an error (returning that error unchanged) and otherwise
commits, returning the raw commit error if the commit fails. -/
def exec (env : CommitEnv) : UnitOfWork → Context → Store → Store × Option ErrVal
  | .ret e, _, s => (s, e)
  | .write w k, ctx, s => exec env k ctx (performWrite ctx s w)
  | .atomicCall inner k, ctx, s =>
    let txCtx := SetTransaction ctx (.txVal ⟨s.nextTxId⟩)
    let s1 : Store :=
      { s with nextTxId := s.nextTxId + 1, opened := s.opened + 1,
               buffers := fun id => if id = s.nextTxId then [] else s.buffers id }
    let res := exec env inner txCtx s1
    match res.2 with
    | some e => exec env (k (some e)) ctx (rollbackTx s.nextTxId res.1)
    | none =>
      match env s.nextTxId with
      | some ce => exec env (k (some (Sum.inl ce))) ctx (rollbackTx s.nextTxId res.1)
      | none => exec env (k none) ctx (commitTx s.nextTxId res.1)

/-- Embeds `gormDatabase.Atomic(ctx, fn)`: begin a fresh transaction on the root
handle (never consulting `ctxkey.GetTransaction` on the incoming
context), attach the fresh handle to `ctx`, run `fn`, roll back on a
non-nil result (returning it unchanged) and commit otherwise (returning
the raw commit error on commit failure). -/
def Atomic (env : CommitEnv) (ctx : Context) (fn : UnitOfWork) (s : Store) :
    Store × Option ErrVal :=
  let txCtx := SetTransaction ctx (.txVal ⟨s.nextTxId⟩)
  let s1 : Store :=
    { s with nextTxId := s.nextTxId + 1, opened := s.opened + 1,
             buffers := fun id => if id = s.nextTxId then [] else s.buffers id }
  let res := exec env fn txCtx s1
  match res.2 with
  | some e => (rollbackTx s.nextTxId res.1, some e)
  | none =>
    match env s.nextTxId with
    | some ce => (rollbackTx s.nextTxId res.1, some (Sum.inl ce))
    | none => (commitTx s.nextTxId res.1, none)

/-- A unit of work with no nested `Atomic` call. -/
def noNested : UnitOfWork → Bool
  | .ret _ => true
  | .write _ k => noNested k
  | .atomicCall _ _ => false

/-- The writes a nesting-free unit performs, in order. -/
def writes : UnitOfWork → List String
  | .ret _ => []
  | .write w k => w :: writes k
  | .atomicCall _ _ => []

/-- The error a nesting-free unit returns. -/
def unitResult : UnitOfWork → Option ErrVal
  | .ret e => e
  | .write _ k => unitResult k
  | .atomicCall _ _ => none

/-- Reads the map-shaped details of an error at a key. -/
def detailValue (e : AppError) (k : String) : Option String :=
  match e.Details with
  | .dmap entries => List.lookup k entries
  | _ => none

/-- The exported post-construction enrichment operations on an
`AppError`. -/
inductive EnrichOp where
  | withDetail (key value : String)
  | withError (err : Option RawError)
  | addValidationError (field message : String)
  | addValidationErrors (errs : List (List (String × String)))

/-- Apply one enrichment operation. -/
def applyEnrich (e : AppError) : EnrichOp → AppError
  | .withDetail key value => e.WithDetail key value
  | .withError err => e.WithError err
  | .addValidationError field message => e.AddValidationError field message
  | .addValidationErrors errs => e.AddValidationErrors errs

/-- Apply a sequence of enrichment operations, left to right. -/
def applyEnrichAll (e : AppError) (ops : List EnrichOp) : AppError :=
  ops.foldl applyEnrich e

/-- The empty storage state. -/
def s0 : Store :=
  { nextTxId := 0, opened := 0, committed := [], buffers := fun _ => [] }

/-- Commit oracle under which every commit succeeds. -/
def envNone : CommitEnv := fun _ => none

/-- Commit oracle under which the first transaction's commit fails with a
raw driver error. -/
def env1 : CommitEnv :=
  fun tid => if tid = 0 then some (.other "commit failed") else none

/-! ## Theorems -/

/-- Every branch of the `mapPgError` switch produces a classified error
with a non-empty code and one of the three kinds, or falls through. -/
theorem mapPgError_shape (err : RawError) :
    mapPgError err = none ∨
      ∃ a, mapPgError err = some a ∧ a.Code ≠ "" ∧
        (a.Kind = KindPersistance ∨ a.Kind = KindTransient ∨ a.Kind = KindInternal) := by
  unfold mapPgError
  cases h : errorsAsPgError err with
  | none => exact Or.inl rfl
  | some pgErr =>
    repeat' split
    all_goals try exact Or.inl rfl
    all_goals refine Or.inr ⟨_, rfl, ?_, ?_⟩ <;>
      dsimp only [NewTransient, NewPersistance, NewInternal, New, AppError.WithDetail] <;>
      decide

/-- Shape of `MapDBError` on every non-nil raw error: the
record-not-found sentinel is passed through unmodified, and everything
else is classified with a non-empty code and a kind among the three. -/
theorem MapDBError_shape (err : RawError) :
    (isRecordNotFound err = true ∧ MapDBError (some err) = some (Sum.inl err)) ∨
      ∃ a, MapDBError (some err) = some (Sum.inr a) ∧ a.Code ≠ "" ∧
        (a.Kind = KindPersistance ∨ a.Kind = KindTransient ∨ a.Kind = KindInternal) := by
  simp only [MapDBError]
  by_cases h1 : isRecordNotFound err = true
  · rw [if_pos h1]
    exact Or.inl ⟨h1, rfl⟩
  · rw [if_neg h1]
    right
    by_cases h2 : isDeadlineExceeded err = true
    · rw [if_pos h2]
      refine ⟨_, rfl, ?_, ?_⟩ <;> dsimp only [NewTransient, New] <;> decide
    · rw [if_neg h2]
      rcases mapPgError_shape err with hn | ⟨a, ha, hc, hk⟩
      · rw [hn]
        dsimp only
        split
        · refine ⟨_, rfl, ?_, ?_⟩ <;> dsimp only [NewTransient, New] <;> decide
        · refine ⟨_, rfl, ?_, ?_⟩ <;> dsimp only [NewInternal, New] <;> decide
      · rw [ha]
        exact ⟨a, rfl, hc, hk⟩

/-- A nesting-free unit of work run under a context carrying transaction
handle `tid` appends exactly its writes to that transaction's pending
buffer and returns its own result, touching nothing else. -/
theorem exec_flat (env : CommitEnv) (u : UnitOfWork) (hu : noNested u = true)
    (tid : Nat) (ctx : Context)
    (hctx : GetTransaction ctx = some (.txVal ⟨tid⟩)) (s : Store) :
    exec env u ctx s =
      ({ s with buffers := fun id => if id = tid then s.buffers tid ++ writes u
          else s.buffers id }, unitResult u) := by
  induction u generalizing s with
  | ret e =>
    simp only [exec, writes, unitResult]
    have hb : (fun id => if id = tid then s.buffers tid ++ ([] : List String)
        else s.buffers id) = s.buffers := by
      funext id
      by_cases h : id = tid
      · rw [if_pos h, List.append_nil, h]
      · rw [if_neg h]
    rw [hb]
  | write w k ih =>
    have hpw : performWrite ctx s w =
        { s with buffers := fun id => if id = tid then s.buffers id ++ [w]
            else s.buffers id } := by
      unfold performWrite
      rw [hctx]
    rw [show exec env (.write w k) ctx s
        = exec env k ctx (performWrite ctx s w) from rfl, hpw, ih hu]
    congr 1
    congr 1
    funext id
    by_cases h : id = tid
    · subst h
      simp [writes, List.append_assoc]
    · simp [h]
  | atomicCall inner k ih1 ih2 =>
    simp [noNested] at hu

/-- A nested `Atomic` call inside a unit of work is exactly an `Atomic`
call followed by the continuation on its result. -/
theorem exec_atomicCall (env : CommitEnv) (inner : UnitOfWork)
    (k : Option ErrVal → UnitOfWork) (ctx : Context) (s : Store) :
    exec env (.atomicCall inner k) ctx s =
      exec env (k (Atomic env ctx inner s).2) ctx (Atomic env ctx inner s).1 := by
  simp only [exec, Atomic]
  cases hr : (exec env inner (SetTransaction ctx (.txVal ⟨s.nextTxId⟩)) { s with nextTxId := s.nextTxId + 1, opened := s.opened + 1, buffers := fun id => if id = s.nextTxId then [] else s.buffers id }).2 with
  | some e => rfl
  | none => cases env s.nextTxId <;> rfl

/-- Every `Atomic` call on a nesting-free unit begins exactly one
transaction, whatever context it is given. -/
theorem Atomic_flat_opened (env : CommitEnv) (ctx : Context) (u : UnitOfWork)
    (s : Store) (hu : noNested u = true) :
    (Atomic env ctx u s).1.opened = s.opened + 1 := by
  simp only [Atomic]
  rw [exec_flat env u hu s.nextTxId (SetTransaction ctx (CtxValue.txVal ⟨s.nextTxId⟩))
    rfl _]
  dsimp only
  cases hr : unitResult u with
  | some e => rfl
  | none => cases env s.nextTxId <;> rfl

/-- Each enrichment operation leaves `Code` and `Kind` untouched. -/
theorem applyEnrich_preserves (e : AppError) (op : EnrichOp) :
    (applyEnrich e op).Code = e.Code ∧ (applyEnrich e op).Kind = e.Kind := by
  obtain ⟨c, m, k, dts, er⟩ := e
  cases op with
  | withDetail key value =>
    cases dts <;> exact ⟨rfl, rfl⟩
  | withError err => exact ⟨rfl, rfl⟩
  | addValidationError f msg =>
    cases dts <;> exact ⟨rfl, rfl⟩
  | addValidationErrors errs => exact ⟨rfl, rfl⟩

/-- C1: the claim says a nested `Atomic` joins the existing transaction
(exactly one transaction opened); the code never inspects the existing
handle: at a concrete nested call two transactions are opened, not one,
and an inner `Atomic` that commits makes its write durable even though
the outer unit then fails and the outer transaction rolls back. -/
theorem C1_nested_counterexample :
    (Atomic envNone Context.background
      (.write "a" (.atomicCall (.write "b" (.ret none)) UnitOfWork.ret)) s0).1.opened = 2 ∧
    (Atomic envNone Context.background
      (.write "a" (.atomicCall (.write "b" (.ret none))
        (fun _ => .ret (some (Sum.inl (RawError.other "outer fails after inner")))))) s0).1.committed
      = ["b"] :=
  ⟨rfl, rfl⟩

/-- C1 (amended): `Atomic` does not detect an existing transaction
handle — called on a context that already carries one, it begins a
second, independent transaction and runs the unit against the fresh
handle; a directly nested `Atomic` (nesting-free inner unit, result
propagated) therefore opens exactly two underlying transactions. -/
theorem C1_no_join (env : CommitEnv) (ctx : Context) (h : Tx)
    (_hctx : GetTransaction ctx = some (.txVal h)) (inner : UnitOfWork)
    (hin : noNested inner = true) (s : Store) :
    (Atomic env ctx (.atomicCall inner UnitOfWork.ret) s).1.opened = s.opened + 2 := by
  have hkey := exec_atomicCall env inner UnitOfWork.ret
  simp only [Atomic]
  rw [hkey]
  simp only [exec]
  cases hr : (Atomic env (SetTransaction ctx (CtxValue.txVal ⟨s.nextTxId⟩)) inner { s with nextTxId := s.nextTxId + 1, opened := s.opened + 1, buffers := fun id => if id = s.nextTxId then [] else s.buffers id }).2 with
  | some e =>
    simp only [rollbackTx]
    rw [Atomic_flat_opened env _ inner _ hin]
  | none =>
    cases envRes : env s.nextTxId with
    | some ce =>
      simp only [rollbackTx]
      rw [Atomic_flat_opened env _ inner _ hin]
    | none =>
      simp only [commitTx]
      rw [Atomic_flat_opened env _ inner _ hin]

/-- Witness for C1 (amended) at a concrete context already carrying
handle 0. -/
theorem C1_witness :
    (Atomic envNone (SetTransaction Context.background (.txVal ⟨0⟩))
      (.atomicCall (.write "b" (.ret none)) UnitOfWork.ret) s0).1.opened = s0.opened + 2 :=
  C1_no_join envNone (SetTransaction Context.background (.txVal ⟨0⟩)) ⟨0⟩ rfl
    (.write "b" (.ret none)) rfl s0

/-- C2: the claim says a commit failure is classified by the storage
error classifier before being returned; the code returns GORM's commit
error raw: at a concrete run whose commit fails, `Atomic` returns the
raw driver error itself — a value the classifier would never return for
that input. -/
theorem C2_commit_unclassified_counterexample :
    (Atomic env1 Context.background (.write "a" (.ret none)) s0).2 =
      some (Sum.inl (RawError.other "commit failed")) ∧
    MapDBError (some (RawError.other "commit failed")) ≠
      some (Sum.inl (RawError.other "commit failed")) :=
  ⟨rfl, by decide⟩

/-- C2 (amended): `Atomic` begins a transaction and runs the unit on a
context carrying its handle; a non-nil unit result rolls the transaction
back (no write observable) and is returned unchanged; a nil result
commits (all writes observable); a commit failure rolls back and is
returned as the raw driver error, not passed through the classifier. -/
theorem C2_rollback_commit (env : CommitEnv) (ctx : Context) (s : Store)
    (u : UnitOfWork) (hu : noNested u = true) :
    (∀ e, unitResult u = some e →
      (Atomic env ctx u s).2 = some e ∧
      (Atomic env ctx u s).1.committed = s.committed) ∧
    (unitResult u = none → env s.nextTxId = none →
      (Atomic env ctx u s).2 = none ∧
      (Atomic env ctx u s).1.committed = s.committed ++ writes u) ∧
    (∀ ce, unitResult u = none → env s.nextTxId = some ce →
      (Atomic env ctx u s).2 = some (Sum.inl ce) ∧
      (Atomic env ctx u s).1.committed = s.committed) := by
  have hx := exec_flat env u hu s.nextTxId
    (SetTransaction ctx (CtxValue.txVal ⟨s.nextTxId⟩)) rfl { s with nextTxId := s.nextTxId + 1, opened := s.opened + 1, buffers := fun id => if id = s.nextTxId then [] else s.buffers id }
  refine ⟨?_, ?_, ?_⟩
  · intro e he
    simp only [Atomic]
    rw [hx]
    dsimp only
    rw [he]
    exact ⟨rfl, rfl⟩
  · intro h1 h2
    simp only [Atomic]
    rw [hx]
    dsimp only
    rw [h1, h2]
    refine ⟨rfl, ?_⟩
    simp [commitTx]
  · intro ce h1 h2
    simp only [Atomic]
    rw [hx]
    dsimp only
    rw [h1, h2]
    exact ⟨rfl, rfl⟩

/-- Witness for C2 (amended): a unit returning an error has its error
returned unchanged with nothing committed; a unit returning nil has its
write committed. -/
theorem C2_witness :
    ((Atomic envNone Context.background
        (.write "a" (.ret (some (Sum.inl (RawError.other "boom"))))) s0).2 =
      some (Sum.inl (RawError.other "boom")) ∧
     (Atomic envNone Context.background
        (.write "a" (.ret (some (Sum.inl (RawError.other "boom"))))) s0).1.committed = []) ∧
    ((Atomic envNone Context.background (.write "a" (.ret none)) s0).2 = none ∧
     (Atomic envNone Context.background (.write "a" (.ret none)) s0).1.committed = ["a"]) :=
  ⟨(C2_rollback_commit envNone Context.background s0
      (.write "a" (.ret (some (Sum.inl (RawError.other "boom"))))) rfl).1 _ rfl,
   (C2_rollback_commit envNone Context.background s0
      (.write "a" (.ret none)) rfl).2.1 rfl rfl⟩

/-- C3: the claim says the classifier maps both deadline expiry and
context cancellation to Transient `DB_TIMEOUT`; the code only recognises
`context.DeadlineExceeded`, so `context.Canceled` falls through to the
Internal `INTERNAL_ERROR` fallback: at the concrete input
`context.Canceled`, `MapDBError` does not return any Transient
`DB_TIMEOUT` value. -/
theorem C3_canceled_counterexample :
    MapDBError (some RawError.canceled) =
      some (Sum.inr (NewInternal CodeInternalError "unexpected database error"
        (some RawError.canceled))) ∧
    ¬ ∃ a, MapDBError (some RawError.canceled) = some (Sum.inr a) ∧
        a.Kind = KindTransient ∧ a.Code = CodeDbTimeout := by
  refine ⟨by decide, ?_⟩
  rintro ⟨a, ha, hk, -⟩
  rw [show MapDBError (some RawError.canceled) =
      some (Sum.inr (NewInternal CodeInternalError "unexpected database error"
        (some RawError.canceled))) from by decide] at ha
  simp only [Option.some.injEq, Sum.inr.injEq] at ha
  rw [← ha] at hk
  exact absurd hk (by decide)

/-- C3 (amended): a deadline-expiry signal classifies as Transient
`DB_TIMEOUT`, but a bare context cancellation is not recognised by
`MapDBError` and falls through to the Internal `INTERNAL_ERROR`
fallback. -/
theorem C3_deadline_timeout_cancel_internal :
    MapDBError (some RawError.deadlineExceeded) =
      some (Sum.inr (NewTransient CodeDbTimeout "database operation timed out"
        (some RawError.deadlineExceeded))) ∧
    MapDBError (some RawError.canceled) =
      some (Sum.inr (NewInternal CodeInternalError "unexpected database error"
        (some RawError.canceled))) := by
  exact ⟨by decide, by decide⟩

/-- C4: a Postgres driver error carrying the structured deadlock code
`40P01` classifies as Transient `DB_DEADLOCK` even when its message
matches the connection-failure substrings, because `mapPgError` (driver
codes) runs before the substring heuristics. -/
theorem C4_deadlock_before_connection_substrings (sev msg det cn : String)
    (_hmsg : stringContains msg "connection refused" = true ∨
      stringContains msg "connection reset by peer" = true) :
    MapDBError (some (.pg ⟨sev, "40P01", msg, det, cn⟩)) =
      some (Sum.inr (NewTransient CodeDbDeadlock
        "database deadlock detected, please retry"
        (some (.pg ⟨sev, "40P01", msg, det, cn⟩)))) := rfl

/-- Witness for C4 at a concrete driver error whose message contains
"connection reset by peer". -/
theorem C4_witness :
    stringContains "deadlock waiting on connection reset by peer"
      "connection reset by peer" = true ∧
    MapDBError (some (.pg ⟨"ERROR", "40P01",
        "deadlock waiting on connection reset by peer", "", "bookings_pkey"⟩)) =
      some (Sum.inr (NewTransient CodeDbDeadlock
        "database deadlock detected, please retry"
        (some (.pg ⟨"ERROR", "40P01",
          "deadlock waiting on connection reset by peer", "", "bookings_pkey"⟩)))) :=
  ⟨by decide,
   C4_deadlock_before_connection_substrings "ERROR"
     "deadlock waiting on connection reset by peer" "" "bookings_pkey"
     (Or.inr (by decide))⟩

/-- C5: `MapDBError` is total on non-nil raw errors: the record-not-found
sentinel is passed through as the original error, and every other input
classifies to an `AppError` with a non-empty code and a kind among
Persistent, Transient and Internal; an unrecognised error defaults to
Internal `INTERNAL_ERROR`. -/
theorem C5_classifier_totality :
    (∀ e : RawError,
      (isRecordNotFound e = true ∧ MapDBError (some e) = some (Sum.inl e)) ∨
      ∃ a, MapDBError (some e) = some (Sum.inr a) ∧ a.Code ≠ "" ∧
        (a.Kind = KindPersistance ∨ a.Kind = KindTransient ∨ a.Kind = KindInternal)) ∧
    MapDBError (some (RawError.other "unrecognized storage failure")) =
      some (Sum.inr (NewInternal CodeInternalError "unexpected database error"
        (some (RawError.other "unrecognized storage failure")))) :=
  ⟨MapDBError_shape, by decide⟩

/-- C7: a Postgres uniqueness violation (code `23505`) classifies as
Persistent `DB_CONFLICT` with the violated constraint name and the
driver detail message attached as details; resolving it against the
seeded registry yields 409 and against a registry without `DB_CONFLICT`
yields the Persistent default 400. -/
theorem C7_unique_violation_conflict (sev msg det cn : String) :
    ∃ a, MapDBError (some (.pg ⟨sev, "23505", msg, det, cn⟩)) = some (Sum.inr a) ∧
      a.Code = CodeDbConflict ∧ a.Kind = KindPersistance ∧
      detailValue a "constraint" = some cn ∧ detailValue a "detail" = some det ∧
      GetHttpStatus initRegistry a = 409 ∧ GetHttpStatus [] a = 400 := by
  refine ⟨_, rfl, rfl, rfl, ?_, ?_, ?_, ?_⟩ <;> rfl

/-- C10: `MapDBError` returns nil exactly on nil input: it never
fabricates an error for a successful operation and never swallows a
non-nil one. -/
theorem C10_nil_iff_nil (e : Option RawError) :
    MapDBError e = none ↔ e = none := by
  cases e with
  | none => simp [MapDBError]
  | some err =>
    constructor
    · intro h
      rcases MapDBError_shape err with ⟨-, h2⟩ | ⟨a, h2, -, -⟩ <;> rw [h2] at h <;>
        exact Option.noConfusion h
    · intro h
      exact Option.noConfusion h

/-- C9: no sequence of the exported enrichment operations (`WithDetail`,
`WithError`, `AddValidationError`, `AddValidationErrors`) changes the
`Code` or `Kind` an `AppError` was constructed with. -/
theorem C9_enrichment_preserves_code_kind (e : AppError) (ops : List EnrichOp) :
    (applyEnrichAll e ops).Code = e.Code ∧ (applyEnrichAll e ops).Kind = e.Kind := by
  induction ops generalizing e with
  | nil => exact ⟨rfl, rfl⟩
  | cons op rest ih =>
    have h1 := applyEnrich_preserves e op
    have h2 := ih (applyEnrich e op)
    exact ⟨h2.1.trans h1.1, h2.2.trans h1.2⟩

/-- C8: the carrier keys collide.  `kTx` and `kRequestID` are both the
zero-size `key` struct and compare equal, so `GetTransaction` on a
context that only went through `SetRequestID` (never through
`SetTransaction`) returns the request-id string instead of none, and
`GetRequestID` after `SetTransaction` loses the request id.  The
attach/lookup round trip itself works when nothing is interposed. -/
theorem C8_carrier_key_collision :
    kTx = kRequestID ∧
    GetTransaction (SetRequestID Context.background "unknown") =
      some (CtxValue.strVal "unknown") ∧
    GetRequestID (SetTransaction Context.background (.txVal ⟨0⟩)) = "" ∧
    GetTransaction (SetTransaction Context.background (.txVal ⟨0⟩)) =
      some (CtxValue.txVal ⟨0⟩) :=
  ⟨rfl, rfl, rfl, rfl⟩

/-- C6: the claim says an unregistered code resolves to the kind's
default; but `GetHttpStatus` retries the lookup on the upper-cased code
first, so the unregistered code "db_conflict" (Persistent kind) resolves
to 409 via the registered "DB_CONFLICT", not to the Persistent default
400. -/
theorem C6_lowercase_counterexample :
    List.lookup "db_conflict" initRegistry = none ∧
    GetHttpStatus initRegistry ⟨"db_conflict", "m", KindPersistance, .dnone, none⟩ = 409 ∧
    GetHttpStatus initRegistry ⟨"db_conflict", "m", KindPersistance, .dnone, none⟩ ≠ 400 :=
  ⟨by decide, by decide, by decide⟩

/-- C6 (amended): a registered code resolves to its registered status
even against the kind default; a code that is unregistered both as-is
and in upper-cased form resolves to the kind default (400 Persistent,
503 Transient, 500 Internal, 500 for any other kind string). -/
theorem C6_registry_resolution (reg : Registry) (e : AppError) :
    (∀ status, List.lookup e.Code reg = some status → GetHttpStatus reg e = status) ∧
    (List.lookup e.Code reg = none →
      List.lookup (stringToUpper e.Code) reg = none →
      GetHttpStatus reg e =
        if e.Kind == KindPersistance then 400
        else if e.Kind == KindTransient then 503
        else if e.Kind == KindInternal then 500
        else 500) := by
  constructor
  · intro status h
    unfold GetHttpStatus
    rw [h]
  · intro h1 h2
    unfold GetHttpStatus
    rw [h1, h2]

/-- Witness for C6 (amended): a Persistent-kind code registered to 409
resolves to 409 despite the kind default 400, and a code registered
nowhere resolves to its Transient kind default 503. -/
theorem C6_witness :
    GetHttpStatus [("BOOKING_CONFLICT", 409)]
      ⟨"BOOKING_CONFLICT", "m", KindPersistance, .dnone, none⟩ = 409 ∧
    GetHttpStatus [] ⟨"NEVER_REGISTERED", "m", KindTransient, .dnone, none⟩ = 503 :=
  ⟨(C6_registry_resolution [("BOOKING_CONFLICT", 409)]
      ⟨"BOOKING_CONFLICT", "m", KindPersistance, .dnone, none⟩).1 409 (by decide),
   ((C6_registry_resolution []
      ⟨"NEVER_REGISTERED", "m", KindTransient, .dnone, none⟩).2
      (by decide) (by decide)).trans (by decide)⟩

end Voyago
